import Mathlib

/-!
The libmodal C bindings header `bindings.h`.

A shallow embedding of the header `src/bindings.h`:

* the constant `MAX_MESSAGE_SIZE`, whose initialiser `((100 * 1024) * 1024)` is
  evaluated in `int` arithmetic and then converted to `uintptr_t`;
* the declaration `void add_two_numbers(int32_t x, int32_t y);`.

Machine integers are mathematical integers with explicit reduction modulo `2 ^ w`.
The width of `uintptr_t` is a parameter `w` (the header does not fix it).
-/

namespace Bindings

/-! ## Machine arithmetic -/

/-- Largest value of a signed 32-bit integer. -/
def INT32_MAX : Int := 2147483647

/-- Smallest value of a signed 32-bit integer. -/
def INT32_MIN : Int := -2147483648

/-- Membership in the range of `int32_t`. -/
def isInt32 (v : Int) : Prop := INT32_MIN ≤ v ∧ v ≤ INT32_MAX

instance (v : Int) : Decidable (isInt32 v) := by
  unfold isInt32; exact inferInstance

/-- Two's-complement wrap of an integer into the signed 32-bit range. -/
def wrapInt32 (v : Int) : Int := (v + 2147483648) % 4294967296 - 2147483648

/-- Multiplication of two `int` values as the C++ abstract machine defines it:
the exact product when it is representable, no value (overflow) otherwise. -/
def mulIntChecked (a b : Int) : Option Int :=
  if isInt32 (a * b) then some (a * b) else none

/-- Multiplication of two `int` values as 32-bit hardware computes it. -/
def mulIntWrapped (a b : Int) : Int := wrapInt32 (a * b)

/-- Conversion of an integer to the unsigned type `uintptr_t` of width `w`. -/
def toUintptr (w : Nat) (v : Int) : Nat := (v % (2 : Int) ^ w).toNat

/-! ## The constant -/

/-- The initialiser `((100 * 1024) * 1024)`, evaluated step by step with overflow
detection. -/
def MAX_MESSAGE_SIZE_init : Option Int :=
  (mulIntChecked 100 1024).bind fun t => mulIntChecked t 1024

/-- The constant
`constexpr static const uintptr_t MAX_MESSAGE_SIZE = ((100 * 1024) * 1024);`
on a platform whose `uintptr_t` has `w` bits: the initialiser is computed in 32-bit
`int` arithmetic and the result converted to `uintptr_t`. -/
def MAX_MESSAGE_SIZE (w : Nat) : Nat :=
  toUintptr w (mulIntWrapped (mulIntWrapped 100 1024) 1024)

/-! ## The exported declaration -/

/-- The C types that occur in the header. -/
inductive CType where
  | void
  | int32
  | uintptr
  deriving DecidableEq, Repr

/-- Language linkage of a declaration (`extern "C"` or the C++ default). -/
inductive Linkage where
  | c
  | cpp
  deriving DecidableEq, Repr

/-- A function declaration: name, ordered parameter types, return type, linkage. -/
structure BoundaryFunction where
  name : String
  params : List CType
  ret : CType
  linkage : Linkage
  deriving DecidableEq, Repr

/-- The declaration `void add_two_numbers(int32_t x, int32_t y);`, placed in the
header inside an `extern "C"` block. -/
def add_two_numbers_decl : BoundaryFunction :=
  ⟨"add_two_numbers", [CType.int32, CType.int32], CType.void, Linkage.c⟩

/-- The values of a C type: `void` carries no information, `int32_t` is an integer
in the signed 32-bit range, `uintptr_t` a natural number. -/
def CType.denote : CType → Type
  | CType.void => Unit
  | CType.int32 => { v : Int // isInt32 v }
  | CType.uintptr => Nat

/-- The type of a function with parameter types `ps` and return type `r`. -/
def implType (ps : List CType) (r : CType) : Type :=
  match ps with
  | [] => r.denote
  | p :: rest => p.denote → implType rest r

/-- The type every definition of a declared function must have. -/
def BoundaryFunction.Impl (d : BoundaryFunction) : Type := implType d.params d.ret

/-! ## The stub operation

The header only declares `add_two_numbers`; its body is defined elsewhere. -/

/-- Modelled from the spec: the overflow policy of the addition, which the spec
names as "documented wrap or saturate" without choosing one. -/
inductive OverflowPolicy where
  | wrap
  | saturate
  deriving DecidableEq, Repr

/-- Clamp an integer to the signed 32-bit range. -/
def saturateInt32 (v : Int) : Int :=
  if v < INT32_MIN then INT32_MIN else if INT32_MAX < v then INT32_MAX else v

/-- Addition of two `int32_t` values with no policy: the exact sum when it is
representable, no defined value otherwise. -/
def addInt32Unchecked (x y : Int) : Option Int :=
  if isInt32 (x + y) then some (x + y) else none

/-- Store a value in an `int32_t`: defined only for representable values. -/
def storeInt32 (v : Int) : Option Int :=
  if isInt32 v then some v else none

/-- Modelled from the spec: the body of `add_two_numbers` is missing from the
header. The sum the stub computes, under the chosen overflow policy, held in an
`int32_t`. -/
def computed_sum (p : OverflowPolicy) (x y : Int) : Option Int :=
  match p with
  | OverflowPolicy.wrap => storeInt32 (wrapInt32 (x + y))
  | OverflowPolicy.saturate => storeInt32 (saturateInt32 (x + y))

/-- A failure that would leave the callee other than by a normal return. -/
inductive BoundaryError where
  | undefinedSum
  deriving DecidableEq, Repr

/-- Modelled from the spec: the state of the process around a call, the
process-wide constant and the memory of caller and callee ("without corrupting
caller or callee state"). -/
structure ProcState where
  max_message_size : Nat
  caller : List Int
  callee : List Int
  deriving DecidableEq, Repr

/-- The process state at start-up on a platform with `w`-bit `uintptr_t`. -/
def initState (w : Nat) : ProcState :=
  { max_message_size := MAX_MESSAGE_SIZE w, caller := [], callee := [] }

/-- Modelled from the spec: the body of `add_two_numbers` is missing from the
header. The stub computes the sum of its arguments under the overflow policy,
"performs no observable action and returns nothing", and touches no state; the
only way it could fail is a sum without a defined value. -/
def add_two_numbers (p : OverflowPolicy) (s : ProcState) (x y : Int) :
    ProcState × Except BoundaryError Unit :=
  match computed_sum p x y with
  | some _ => (s, Except.ok ())
  | none => (s, Except.error BoundaryError.undefinedSum)

/-- A sequence of calls, each on the state the previous one left, with the
outcomes in call order. -/
def run_calls (p : OverflowPolicy) (s : ProcState) :
    List (Int × Int) → ProcState × List (Except BoundaryError Unit)
  | [] => (s, [])
  | c :: rest =>
    let r := add_two_numbers p s c.1 c.2
    let t := run_calls p r.1 rest
    (t.1, r.2 :: t.2)

/-! ## Auxiliary facts -/

theorem wrapInt32_isInt32 (v : Int) : isInt32 (wrapInt32 v) := by
  unfold isInt32 wrapInt32 INT32_MIN INT32_MAX
  omega

theorem wrapInt32_of_isInt32 (v : Int) (h : isInt32 v) : wrapInt32 v = v := by
  unfold isInt32 INT32_MIN INT32_MAX at h
  unfold wrapInt32
  omega

theorem saturateInt32_isInt32 (v : Int) : isInt32 (saturateInt32 v) := by
  unfold isInt32 saturateInt32 INT32_MIN INT32_MAX
  split_ifs <;> omega

theorem saturateInt32_of_isInt32 (v : Int) (h : isInt32 v) : saturateInt32 v = v := by
  unfold isInt32 INT32_MIN INT32_MAX at h
  unfold saturateInt32 INT32_MIN INT32_MAX
  split_ifs <;> omega

theorem storeInt32_of_isInt32 (v : Int) (h : isInt32 v) : storeInt32 v = some v := by
  unfold storeInt32
  rw [if_pos h]

theorem computed_sum_wrap (x y : Int) :
    computed_sum OverflowPolicy.wrap x y = some (wrapInt32 (x + y)) :=
  storeInt32_of_isInt32 _ (wrapInt32_isInt32 _)

theorem computed_sum_saturate (x y : Int) :
    computed_sum OverflowPolicy.saturate x y = some (saturateInt32 (x + y)) :=
  storeInt32_of_isInt32 _ (saturateInt32_isInt32 _)

theorem initialiser_wrapped : mulIntWrapped (mulIntWrapped 100 1024) 1024 = 104857600 := by
  decide

theorem toUintptr_small (w : Nat) (v : Nat) (hw : 32 ≤ w) (hv : v < 4294967296) :
    toUintptr w (v : Int) = v := by
  unfold toUintptr
  have h2 : (2 : Int) ^ 32 ≤ (2 : Int) ^ w := pow_le_pow_right₀ (by norm_num) hw
  have h3 : ((v : Nat) : Int) < (2 : Int) ^ w := by
    have : ((v : Nat) : Int) < (2 : Int) ^ 32 := by norm_num; omega
    omega
  rw [Int.emod_eq_of_lt (Int.ofNat_nonneg v) h3]
  exact Int.toNat_ofNat v

theorem add_two_numbers_state (p : OverflowPolicy) (s : ProcState) (x y : Int) :
    (add_two_numbers p s x y).1 = s := by
  unfold add_two_numbers
  cases computed_sum p x y <;> rfl

theorem add_two_numbers_outcome (p : OverflowPolicy) (s : ProcState) (x y : Int) :
    (add_two_numbers p s x y).2 = Except.ok () := by
  unfold add_two_numbers
  cases p
  · rw [computed_sum_wrap]
  · rw [computed_sum_saturate]

theorem run_calls_state (p : OverflowPolicy) (s : ProcState) (calls : List (Int × Int)) :
    (run_calls p s calls).1 = s := by
  induction calls generalizing s with
  | nil => rfl
  | cons c rest ih =>
    show (run_calls p (add_two_numbers p s c.1 c.2).1 rest).1 = s
    rw [ih, add_two_numbers_state]

/-! ## The size limit -/

/-- C1: on every platform whose `uintptr_t` has at least 32 bits, the constant
`MAX_MESSAGE_SIZE`, defined as `((100 * 1024) * 1024)`, equals exactly 104857600,
which is 100 MiB, that is `100 * 2 ^ 20` bytes. -/
theorem max_message_size_value (w : Nat) (hw : 32 ≤ w) :
    MAX_MESSAGE_SIZE w = 104857600 ∧ MAX_MESSAGE_SIZE w = 100 * 2 ^ 20 := by
  have h : MAX_MESSAGE_SIZE w = 104857600 := by
    unfold MAX_MESSAGE_SIZE
    rw [initialiser_wrapped]
    exact toUintptr_small w 104857600 hw (by norm_num)
  exact ⟨h, by rw [h]; norm_num⟩

theorem max_message_size_value_witness :
    32 ≤ 64 ∧ MAX_MESSAGE_SIZE 64 = 104857600 ∧ MAX_MESSAGE_SIZE 64 = 100 * 2 ^ 20 :=
  ⟨by decide, max_message_size_value 64 (by decide)⟩

/-- C2: `MAX_MESSAGE_SIZE` is strictly positive and fits `uintptr_t` without
truncation for 32-bit and for 64-bit pointers: it lies strictly between 0 and
`2 ^ 32`, its value is the exact product `100 * 1024 * 1024`, and reducing it modulo
`2 ^ w` leaves 104857600 for `w = 32` and for `w = 64`. -/
theorem max_message_size_fits_uintptr :
    (0 < MAX_MESSAGE_SIZE 32 ∧ MAX_MESSAGE_SIZE 32 < 2 ^ 32 ∧
      MAX_MESSAGE_SIZE 32 = 100 * 1024 * 1024 ∧
      MAX_MESSAGE_SIZE 32 % 2 ^ 32 = 104857600) ∧
    (0 < MAX_MESSAGE_SIZE 64 ∧ MAX_MESSAGE_SIZE 64 < 2 ^ 32 ∧
      MAX_MESSAGE_SIZE 64 = 100 * 1024 * 1024 ∧
      MAX_MESSAGE_SIZE 64 % 2 ^ 64 = 104857600) := by
  have h32 : MAX_MESSAGE_SIZE 32 = 104857600 := by
    unfold MAX_MESSAGE_SIZE
    rw [initialiser_wrapped]
    exact toUintptr_small 32 104857600 (le_refl 32) (by norm_num)
  have h64 : MAX_MESSAGE_SIZE 64 = 104857600 := by
    unfold MAX_MESSAGE_SIZE
    rw [initialiser_wrapped]
    exact toUintptr_small 64 104857600 (by norm_num) (by norm_num)
  rw [h32, h64]
  norm_num

/-- C8: the initialiser `((100 * 1024) * 1024)` is evaluated in signed 32-bit `int`
arithmetic before the conversion to `uintptr_t`, and neither product overflows:
`100 * 1024 = 102400` and `102400 * 1024 = 104857600` are both defined and at most
`2 ^ 31 - 1`, so the wrapped 32-bit evaluation equals the exact integer product, and
the constant is that product converted to `uintptr_t`. -/
theorem max_message_size_init_no_overflow :
    mulIntChecked 100 1024 = some 102400 ∧
    mulIntChecked 102400 1024 = some 104857600 ∧
    MAX_MESSAGE_SIZE_init = some 104857600 ∧
    (102400 : Int) ≤ 2 ^ 31 - 1 ∧ (104857600 : Int) ≤ 2 ^ 31 - 1 ∧
    INT32_MAX = 2 ^ 31 - 1 ∧
    mulIntWrapped 100 1024 = 100 * 1024 ∧
    mulIntWrapped (mulIntWrapped 100 1024) 1024 = 100 * 1024 * 1024 ∧
    ∀ w : Nat, MAX_MESSAGE_SIZE w = toUintptr w (100 * 1024 * 1024) := by
  refine ⟨by decide, by decide, by decide, by norm_num, by norm_num, by decide,
    by decide, by decide, ?_⟩
  intro w
  unfold MAX_MESSAGE_SIZE
  rw [initialiser_wrapped]
  norm_num

/-! ## The declared signature -/

/-- C4: the exported operation `add_two_numbers` has exactly the signature
`(int32, int32) -> void`: two signed 32-bit parameters, in that order, C linkage, and
no return channel. The result type is the unit type, so whatever body is linked
against the declaration, every call yields the same, information-free result. -/
theorem add_two_numbers_signature :
    add_two_numbers_decl.name = "add_two_numbers" ∧
    add_two_numbers_decl.params = [CType.int32, CType.int32] ∧
    add_two_numbers_decl.ret = CType.void ∧
    add_two_numbers_decl.linkage = Linkage.c ∧
    add_two_numbers_decl.Impl = ({ v : Int // isInt32 v } → { v : Int // isInt32 v } → Unit) ∧
    ∀ (f : add_two_numbers_decl.Impl) (x y a b : CType.denote CType.int32),
      f x y = f a b ∧ f x y = () := by
  refine ⟨rfl, rfl, rfl, rfl, rfl, ?_⟩
  intro f x y a b
  exact ⟨rfl, rfl⟩

/-! ## The stub operation -/

/-- C3: for every pair `(x, y)` of signed 32-bit integers, under either overflow
policy and from any process state, `add_two_numbers x y` returns normally: the
outcome is `ok`, never the error, so the error branch is unreachable. -/
theorem add_two_numbers_returns (p : OverflowPolicy) (s : ProcState) (x y : Int)
    (_hx : isInt32 x) (_hy : isInt32 y) :
    (add_two_numbers p s x y).2 = Except.ok () ∧
    (add_two_numbers p s x y).2 ≠ Except.error BoundaryError.undefinedSum := by
  have h := add_two_numbers_outcome p s x y
  refine ⟨h, ?_⟩
  rw [h]
  intro hc
  cases hc

theorem add_two_numbers_returns_witness :
    isInt32 2147483647 ∧ isInt32 1 ∧
    (add_two_numbers OverflowPolicy.wrap (initState 64) 2147483647 1).2 = Except.ok () ∧
    (add_two_numbers OverflowPolicy.wrap (initState 64) 2147483647 1).2 ≠
      Except.error BoundaryError.undefinedSum :=
  ⟨by decide, by decide,
    add_two_numbers_returns OverflowPolicy.wrap (initState 64) 2147483647 1
      (by decide) (by decide)⟩

/-- C5: `add_two_numbers` adds its two numbers under a defined overflow policy. For
every pair `(x, y)` of signed 32-bit integers the computed sum is a defined `int32`
value: it is the sum wrapped modulo `2 ^ 32` or the sum saturated, it is congruent
to or clamped from the exact sum accordingly, and it is the exact sum whenever that
is representable. At the overflowing pair `(2147483647, 1)`, where addition without
a policy has no defined value, wrapping gives `-2147483648` and saturation gives
`2147483647`. -/
theorem computed_sum_defined (p : OverflowPolicy) (x y : Int)
    (_hx : isInt32 x) (_hy : isInt32 y) :
    (∃ r : Int, computed_sum p x y = some r ∧ isInt32 r ∧
      (r = wrapInt32 (x + y) ∨ r = saturateInt32 (x + y)) ∧
      (isInt32 (x + y) → r = x + y) ∧
      (p = OverflowPolicy.wrap → (r - (x + y)) % 4294967296 = 0) ∧
      (p = OverflowPolicy.saturate → x + y < INT32_MIN → r = INT32_MIN) ∧
      (p = OverflowPolicy.saturate → INT32_MAX < x + y → r = INT32_MAX)) ∧
    addInt32Unchecked 2147483647 1 = none ∧
    computed_sum OverflowPolicy.wrap 2147483647 1 = some (-2147483648) ∧
    computed_sum OverflowPolicy.saturate 2147483647 1 = some 2147483647 := by
  refine ⟨?_, by decide, by decide, by decide⟩
  cases p
  · refine ⟨wrapInt32 (x + y), computed_sum_wrap x y, wrapInt32_isInt32 _, Or.inl rfl,
      fun h => wrapInt32_of_isInt32 _ h, ?_, ?_, ?_⟩
    · intro _
      unfold wrapInt32
      omega
    · intro h; cases h
    · intro h; cases h
  · refine ⟨saturateInt32 (x + y), computed_sum_saturate x y, saturateInt32_isInt32 _,
      Or.inr rfl, fun h => saturateInt32_of_isInt32 _ h, ?_, ?_, ?_⟩
    · intro h; cases h
    · intro _ h
      unfold saturateInt32
      rw [if_pos h]
    · intro _ h
      unfold INT32_MAX at h
      unfold saturateInt32 INT32_MIN INT32_MAX
      split_ifs <;> first | rfl | omega

theorem computed_sum_defined_witness :
    isInt32 2147483647 ∧ isInt32 1 ∧
    ((∃ r : Int, computed_sum OverflowPolicy.saturate 2147483647 1 = some r ∧ isInt32 r ∧
      (r = wrapInt32 (2147483647 + 1) ∨ r = saturateInt32 (2147483647 + 1)) ∧
      (isInt32 (2147483647 + 1) → r = 2147483647 + 1) ∧
      (OverflowPolicy.saturate = OverflowPolicy.wrap →
        (r - (2147483647 + 1)) % 4294967296 = 0) ∧
      (OverflowPolicy.saturate = OverflowPolicy.saturate →
        2147483647 + 1 < INT32_MIN → r = INT32_MIN) ∧
      (OverflowPolicy.saturate = OverflowPolicy.saturate →
        INT32_MAX < 2147483647 + 1 → r = INT32_MAX)) ∧
    addInt32Unchecked 2147483647 1 = none ∧
    computed_sum OverflowPolicy.wrap 2147483647 1 = some (-2147483648) ∧
    computed_sum OverflowPolicy.saturate 2147483647 1 = some 2147483647) :=
  ⟨by decide, by decide,
    computed_sum_defined OverflowPolicy.saturate 2147483647 1 (by decide) (by decide)⟩

/-- C6: `add_two_numbers` is stateless. A call with any arguments leaves the process
state unchanged, and so does any sequence of calls; in particular
`MAX_MESSAGE_SIZE` still has the value 104857600 afterwards. The outcome of a call
does not depend on the calls made before it, nor on the state it runs in. -/
theorem add_two_numbers_stateless (p : OverflowPolicy) (s : ProcState)
    (history : List (Int × Int)) (x y : Int) :
    (add_two_numbers p s x y).1 = s ∧
    (run_calls p s history).1 = s ∧
    (run_calls p (initState 64) history).1.max_message_size = 104857600 ∧
    (run_calls p (initState 32) history).1.max_message_size = 104857600 ∧
    (add_two_numbers p (run_calls p s history).1 x y).2 = (add_two_numbers p s x y).2 ∧
    add_two_numbers p (run_calls p s history).1 x y = add_two_numbers p s x y ∧
    ∀ t : ProcState, (add_two_numbers p t x y).2 = (add_two_numbers p s x y).2 := by
  have hs := run_calls_state p s history
  refine ⟨add_two_numbers_state p s x y, hs, ?_, ?_, by rw [hs], by rw [hs], ?_⟩
  · rw [run_calls_state]
    show MAX_MESSAGE_SIZE 64 = 104857600
    unfold MAX_MESSAGE_SIZE
    rw [initialiser_wrapped]
    exact toUintptr_small 64 104857600 (by norm_num) (by norm_num)
  · rw [run_calls_state]
    show MAX_MESSAGE_SIZE 32 = 104857600
    unfold MAX_MESSAGE_SIZE
    rw [initialiser_wrapped]
    exact toUintptr_small 32 104857600 (le_refl 32) (by norm_num)
  · intro t
    rw [add_two_numbers_outcome, add_two_numbers_outcome]

end Bindings
